import Mathlib

/-!
Shallow embedding of `app2.py` (nearby-amenity finder) over exact real
arithmetic, together with proofs about its core pipeline: the haversine
distance, the per-candidate normalization, the radius filter, the stable
distance sort, the Overpass fetch normalization and the request handler.

Python floats are modelled as real numbers; Python dictionaries carrying
optional keys are modelled as structures of `Option`-typed fields, where
`none` means the key is absent (or its value cannot be read as a number).
-/

open List

/-- The OSM tag set of one Overpass element, as consulted by
`fetch_from_overpass` (keys `amenity`, `name`, `addr:housename`,
`addr:street`, `addr:city`, `addr:postcode`). -/
structure OsmTags where
  amenity : Option String
  name : Option String
  housename : Option String
  street : Option String
  city : Option String
  postcode : Option String

/-- One element of an Overpass API response (`data['elements']`): its
`type` field, optional `lat`/`lon`, and its tag dictionary. -/
structure OsmElement where
  type : String
  lat : Option ℝ
  lon : Option ℝ
  tags : OsmTags

/-- A raw candidate record handed to `process_and_sort_results`: a
string-keyed dictionary whose relevant keys are `name`, `Name`,
`address`, `Address`, `latitude`, `longitude`.  `none` models a missing
key (or, for the coordinates, a value on which `math.radians` raises). -/
structure RawItem where
  name : Option String
  Name : Option String
  address : Option String
  Address : Option String
  latitude : Option ℝ
  longitude : Option ℝ

/-- One entry of the final response list built at lines 42-50 of
`app2.py`.  The `google_map_link` field records the coordinate pair that
the source interpolates into the Google-Maps URL template. -/
structure ResultRec where
  name : String
  address : String
  distance_km : ℝ
  latitude : ℝ
  longitude : ℝ
  google_map_link : ℝ × ℝ

/-- Outcome of the `/api/find-amenities` handler: a 200 JSON list, a
400 error body, or a 500 error body. -/
inductive FindResult where
  | ok : List ResultRec → FindResult
  | err400 : String → FindResult
  | err500 : String → FindResult

/-- The JSON payload of a `/api/find-amenities` request.  Each field is
`none` when the key is absent; `some none` models a present value that
`float()` cannot parse; `some (some x)` a present numeric value. -/
structure ReqData where
  user_lat : Option (Option ℝ)
  user_lon : Option (Option ℝ)
  radius : Option (Option ℝ)
  amenity_type : Option String

noncomputable section
open Classical Real

/-- `math.radians`: degrees to radians. -/
def radians (deg : ℝ) : ℝ := deg * π / 180

/-- `math.atan2 y x` (note the argument order), on real numbers.
Signed zeros do not exist on `ℝ`; only the `atan2(0, 0) = 0` case of the
IEEE convention is represented. -/
def atan2 (y x : ℝ) : ℝ :=
  if 0 < x then Real.arctan (y / x)
  else if x < 0 then
    (if 0 ≤ y then Real.arctan (y / x) + π else Real.arctan (y / x) - π)
  else if 0 < y then π / 2
  else if y < 0 then -(π / 2)
  else 0

/-- The intermediate `a` of `haversine` (line 22 of `app2.py`):
`sin(d_lat/2)**2 + cos(rad_lat1)*cos(rad_lat2)*sin(d_lon/2)**2`. -/
def haversine_a (lat1 lon1 lat2 lon2 : ℝ) : ℝ :=
  Real.sin ((radians lat2 - radians lat1) / 2) ^ 2 +
    Real.cos (radians lat1) * Real.cos (radians lat2) *
      Real.sin ((radians lon2 - radians lon1) / 2) ^ 2

/-- `haversine` (lines 14-24 of `app2.py`): `R * c` with `R = 6371` and
`c = 2 * atan2(sqrt(a), sqrt(1 - a))`.  The argument of the second
square root is `1 - a`, not clamped. -/
def haversine (lat1 lon1 lat2 lon2 : ℝ) : ℝ :=
  6371 * (2 * atan2 (Real.sqrt (haversine_a lat1 lon1 lat2 lon2))
    (Real.sqrt (1 - haversine_a lat1 lon1 lat2 lon2)))

lemma atan2_zero_one : atan2 0 1 = 0 := by
  simp [atan2, Real.arctan_zero]

lemma atan2_one_zero : atan2 1 0 = π / 2 := by
  norm_num [atan2]

lemma haversine_a_self (lat lon : ℝ) : haversine_a lat lon lat lon = 0 := by
  simp [haversine_a]

lemma haversine_self (lat lon : ℝ) : haversine lat lon lat lon = 0 := by
  simp [haversine, haversine_a_self, atan2_zero_one]

/-- The record appended at lines 42-50 of `app2.py` for a retained
candidate: note `item.get('name', 'N/A')` (lowercase key only) and
`item.get('Address', '')` (capitalized key only). -/
def mkResult (item : RawItem) (lat lon dist : ℝ) : ResultRec :=
  { name := item.name.getD "N/A"
    address := item.Address.getD ""
    distance_km := dist
    latitude := lat
    longitude := lon
    google_map_link := (lat, lon) }

/-- The `for item in results_list` loop of `process_and_sort_results`
(lines 32-52): a candidate whose `latitude` or `longitude` is missing or
non-numeric makes `haversine` raise, the exception is caught, and the
candidate is skipped; otherwise the candidate is appended exactly when
`dist <= search_radius`. -/
def processList (user_lat user_lon search_radius : ℝ) :
    List RawItem → List ResultRec
  | [] => []
  | item :: rest =>
    match item.latitude, item.longitude with
    | some lat, some lon =>
      if haversine user_lat user_lon lat lon ≤ search_radius then
        mkResult item lat lon (haversine user_lat user_lon lat lon) ::
          processList user_lat user_lon search_radius rest
      else processList user_lat user_lon search_radius rest
    | _, _ => processList user_lat user_lon search_radius rest

/-- The effect of the loop body on one candidate, as an `Option`:
`some` of the appended record on the retained path, `none` on the
skip-on-error and beyond-radius paths. -/
def toRes (user_lat user_lon search_radius : ℝ) (item : RawItem) :
    Option ResultRec :=
  match item.latitude, item.longitude with
  | some lat, some lon =>
    if haversine user_lat user_lon lat lon ≤ search_radius then
      some (mkResult item lat lon (haversine user_lat user_lon lat lon))
    else none
  | _, _ => none

/-- `process_and_sort_results` (lines 27-54): run the loop, then
`sorted(final_results, key=lambda p: p['distance_km'])`.  Python sorted
is stable with no secondary key; it is modelled by the stable
`List.insertionSort` under the non-strict key comparison. -/
def process_and_sort_results (user_lat user_lon search_radius : ℝ)
    (results_list : List RawItem) : List ResultRec :=
  List.insertionSort (fun p q => p.distance_km ≤ q.distance_km)
    (processList user_lat user_lon search_radius results_list)

/-- `str.title()` as used on the amenity kind at line 98; modelled for
the single-word amenity kinds the app uses by uppercasing the first
character. -/
def pyTitle (s : String) : String :=
  match s.data with
  | [] => ""
  | c :: cs => String.mk (c.toUpper :: cs)

/-- Lines 101-107 of `app2.py`: the `addr:*` parts joined by `", "`;
Python `filter(None, address_parts)` drops both missing tags and empty
strings. -/
def joinAddress (tags : OsmTags) : String :=
  String.intercalate ", "
    ((([tags.housename, tags.street, tags.city, tags.postcode].filterMap id).filter
      (fun s => s ≠ "")))

/-- Lines 62-66 of `app2.py`: the amenity categories put into the
Overpass query for a given `amenity_type`. -/
def amenitiesFor (amenity_type : String) : List String :=
  if amenity_type = "pharmacy" then ["pharmacy", "hospital"]
  else if amenity_type = "hospital" then ["hospital"]
  else []

/-- Modelled from the spec: the Overpass API itself is not part of the
repository.  Per the collaborator contract (spec §6) and the query built
at line 68, the response to the union of per-category `node` filters
consists of the nodes whose `amenity` tag is one of the queried
categories.  The geometric `around:` constraint is not modelled; the
core re-filters by radius defensively. -/
def overpassRespond (categories : List String) (world : List OsmElement) :
    List OsmElement :=
  world.filter fun e =>
    match e.tags.amenity with
    | some a => categories.contains a
    | none => false

/-- Lines 92-116 of `app2.py`: each `node` element of the response is
turned into a raw item whose keys are lowercase `name` and `address`;
a missing OSM `name` tag defaults to `Unnamed {Kind} (OSM)`. -/
def overpassItems (amenity_type : String) (elements : List OsmElement) :
    List RawItem :=
  elements.filterMap fun element =>
    if element.type = "node" then
      some { name := some ((element.tags.name).getD
                ("Unnamed " ++ pyTitle amenity_type ++ " (OSM)"))
             Name := none
             address := some (joinAddress element.tags)
             Address := none
             latitude := element.lat
             longitude := element.lon }
    else none

/-- `fetch_from_overpass` (lines 57-119), with the network call made
explicit: `world` is the state of the external data set and `netError`
is `some detail` when the HTTP request raises.  On failure the function
returns `([], message)`; on success, the normalized node items. -/
def fetch_from_overpass (user_lat user_lon search_radius : ℝ)
    (amenity_type : String) (world : List OsmElement)
    (netError : Option String) : List RawItem × Option String :=
  match netError with
  | some e =>
    ([], some ("External API Error: Overpass API request failed. Please check connection and try again. Detail: " ++ e))
  | none =>
    (overpassItems amenity_type
      (overpassRespond (amenitiesFor amenity_type) world), none)

/-- The 400 message produced by the `except ValueError` branch at
line 194 of `app2.py`. -/
def invalidMsg : String :=
  "Invalid request: Coordinates are missing or invalid. Please search for a location or use Geolocation first."

/-- Lines 179-197 of `app2.py`: read the payload.  `float(data.get('radius', 15))`
is evaluated first, then the missing-coordinate check, then
`float(user_lat)` and `float(user_lon)`; every failure is caught and
becomes the same 400 response.  No positivity check is made on the
radius. -/
def parseRequest (data : ReqData) :
    Except String (ℝ × ℝ × ℝ × String) :=
  match data.radius.getD (some 15) with
  | none => .error invalidMsg
  | some search_radius =>
    match data.user_lat, data.user_lon with
    | some (some user_lat), some (some user_lon) =>
      .ok (user_lat, user_lon, search_radius, data.amenity_type.getD "pharmacy")
    | _, _ => .error invalidMsg

/-- The `/api/find-amenities` handler (lines 176-213): parse, fetch,
rank.  A fetch error becomes a 500; otherwise the (possibly empty)
sorted list is returned with status 200. -/
def find_amenities (data : ReqData) (world : List OsmElement)
    (netError : Option String) : FindResult :=
  match parseRequest data with
  | .error m => .err400 m
  | .ok (user_lat, user_lon, search_radius, amenity_type) =>
    match fetch_from_overpass user_lat user_lon search_radius amenity_type
        world netError with
    | (_, some err) => .err500 err
    | (raw_results, none) =>
      .ok (process_and_sort_results user_lat user_lon search_radius raw_results)

lemma processList_eq_filterMap (u v r : ℝ) (l : List RawItem) :
    processList u v r l = l.filterMap (toRes u v r) := by
  induction l with
  | nil => rfl
  | cons item rest ih =>
    obtain ⟨n, N, a, A, la, lo⟩ := item
    cases la <;> cases lo <;>
      simp only [processList, toRes, List.filterMap_cons, ih]
    split_ifs <;> rfl

lemma processList_dist_le (u v r : ℝ) (l : List RawItem) :
    ∀ p ∈ processList u v r l, p.distance_km ≤ r := by
  induction l with
  | nil => intro p hp; simp [processList] at hp
  | cons item rest ih =>
    intro p hp
    obtain ⟨n, N, a, A, la, lo⟩ := item
    cases la <;> cases lo <;> simp only [processList] at hp
    · exact ih p hp
    · exact ih p hp
    · exact ih p hp
    · split_ifs at hp with hd
      · rcases List.mem_cons.mp hp with h | h
        · rw [h]; exact hd
        · exact ih p h
      · exact ih p hp

lemma filter_orderedInsert_key {α : Type} (k : α → ℝ) (d : ℝ) (x : α)
    (s : List α) :
    (List.orderedInsert (fun a b => k a ≤ k b) x s).filter
        (fun y => k y = d) =
      if k x = d then x :: s.filter (fun y => k y = d)
      else s.filter (fun y => k y = d) := by
  induction s with
  | nil => by_cases h : k x = d <;> simp [List.orderedInsert, h]
  | cons y ys ih =>
    simp only [List.orderedInsert]
    by_cases hxy : k x ≤ k y
    · rw [if_pos hxy]
      by_cases h : k x = d <;> simp [List.filter_cons, h]
    · rw [if_neg hxy]
      have hyx : k y < k x := lt_of_not_le hxy
      by_cases hy : k y = d
      · have hx : k x ≠ d := by rw [← hy]; exact ne_of_gt hyx
        simp [List.filter_cons, hy, hx, ih]
      · by_cases h : k x = d <;> simp [List.filter_cons, hy, h, ih]

lemma filter_insertionSort_key {α : Type} (k : α → ℝ) (d : ℝ) (l : List α) :
    (List.insertionSort (fun a b => k a ≤ k b) l).filter (fun y => k y = d) =
      l.filter (fun y => k y = d) := by
  induction l with
  | nil => rfl
  | cons x xs ih =>
    simp only [List.insertionSort]
    rw [filter_orderedInsert_key]
    by_cases h : k x = d <;> simp [List.filter_cons, h, ih]

lemma haversine_a_symm (lat1 lon1 lat2 lon2 : ℝ) :
    haversine_a lat2 lon2 lat1 lon1 = haversine_a lat1 lon1 lat2 lon2 := by
  unfold haversine_a
  have h1 : (radians lat1 - radians lat2) / 2 =
      -((radians lat2 - radians lat1) / 2) := by ring
  have h2 : (radians lon1 - radians lon2) / 2 =
      -((radians lon2 - radians lon1) / 2) := by ring
  rw [h1, h2, Real.sin_neg, Real.sin_neg]
  ring

/-- C9: the distance function of `app2.py` is symmetric: for every pair
of coordinates, `haversine(a, b) = haversine(b, a)` under exact real
arithmetic over the formula as written. -/
theorem haversine_symmetric (lat1 lon1 lat2 lon2 : ℝ) :
    haversine lat1 lon1 lat2 lon2 = haversine lat2 lon2 lat1 lon1 := by
  unfold haversine
  rw [haversine_a_symm lat1 lon1 lat2 lon2]

/-- C8: the amenity-kind expansion of `fetch_from_overpass` is exactly
the mapping `pharmacy ↦ [pharmacy, hospital]`, `hospital ↦ [hospital]`,
and the successful fetch queries precisely those categories of the
external data set. -/
theorem amenity_kind_expansion :
    amenitiesFor "pharmacy" = ["pharmacy", "hospital"] ∧
    amenitiesFor "hospital" = ["hospital"] ∧
    (∀ (u v r : ℝ) (world : List OsmElement),
      (fetch_from_overpass u v r "pharmacy" world none).1 =
        overpassItems "pharmacy"
          (overpassRespond ["pharmacy", "hospital"] world)) ∧
    (∀ (u v r : ℝ) (world : List OsmElement),
      (fetch_from_overpass u v r "hospital" world none).1 =
        overpassItems "hospital" (overpassRespond ["hospital"] world)) := by
  refine ⟨rfl, by simp [amenitiesFor], fun u v r world => rfl, ?_⟩
  intro u v r world
  simp [fetch_from_overpass, amenitiesFor]

/-- C6: the ranker output is sorted ascending by `distance_km`, and the
sort is stable with no secondary key: for every distance value `d`, the
output records at distance `d` are exactly, and in the same order as,
the retained records at distance `d` of the input list (which
`List.filterMap` traverses in input order). -/
theorem ranker_output_sorted_and_stable (u v r : ℝ) (l : List RawItem) :
    List.Sorted (fun p q : ResultRec => p.distance_km ≤ q.distance_km)
        (process_and_sort_results u v r l) ∧
      ∀ d : ℝ, (process_and_sort_results u v r l).filter
          (fun p => p.distance_km = d) =
        (l.filterMap (toRes u v r)).filter (fun p => p.distance_km = d) := by
  constructor
  · haveI : IsTotal ResultRec (fun p q => p.distance_km ≤ q.distance_km) :=
      ⟨fun a b => le_total _ _⟩
    haveI : IsTrans ResultRec (fun p q => p.distance_km ≤ q.distance_km) :=
      ⟨fun a b c hab hbc => le_trans hab hbc⟩
    exact List.sorted_insertionSort _ _
  · intro d
    rw [process_and_sort_results,
      filter_insertionSort_key (fun p : ResultRec => p.distance_km) d,
      processList_eq_filterMap]

/-- C5: the ranker output consists of exactly the well-formed candidates
whose computed distance is at most the radius (`toRes` is the loop body:
present coordinates and `dist ≤ search_radius`, boundary inclusive), and
no output record exceeds the radius. -/
theorem ranker_keeps_exactly_candidates_within_radius (u v r : ℝ)
    (l : List RawItem) :
    List.Perm (process_and_sort_results u v r l) (l.filterMap (toRes u v r)) ∧
      ∀ p ∈ process_and_sort_results u v r l, p.distance_km ≤ r := by
  constructor
  · unfold process_and_sort_results
    rw [processList_eq_filterMap]
    exact List.perm_insertionSort _ _
  · intro p hp
    rw [process_and_sort_results] at hp
    exact processList_dist_le u v r l p ((List.mem_insertionSort _).mp hp)

/-- A candidate at the origin itself, with only a name. -/
def it5 : RawItem := ⟨some "A", none, none, none, some 0, some 0⟩

/-- The record the ranker produces for `it5` at origin `(0,0)`. -/
def res5 : ResultRec := ⟨"A", "", 0, 0, 0, (0, 0)⟩

lemma eval_it5 (r : ℝ) (hr : (0 : ℝ) ≤ r) :
    process_and_sort_results 0 0 r [it5] = [res5] := by
  simp [process_and_sort_results, processList, it5, res5, mkResult,
    haversine_self, hr]

/-- C5 witness: at radius `0`, a candidate at distance `0` from the
origin is retained (inclusive boundary), and its distance respects the
radius bound. -/
theorem ranker_keeps_exactly_candidates_within_radius_witness :
    res5 ∈ process_and_sort_results 0 0 0 [it5] ∧ res5.distance_km ≤ 0 := by
  have hmem : res5 ∈ process_and_sort_results 0 0 0 [it5] := by
    rw [eval_it5 0 le_rfl]; exact List.mem_singleton_self _
  exact ⟨hmem,
    (ranker_keeps_exactly_candidates_within_radius 0 0 0 [it5]).2 res5 hmem⟩

lemma toRes_eq_none_of_malformed (u v r : ℝ) (item : RawItem)
    (h : item.latitude = none ∨ item.longitude = none) :
    toRes u v r item = none := by
  obtain ⟨n, N, a, A, la, lo⟩ := item
  cases la with
  | none => rfl
  | some lat =>
    cases lo with
    | none => rfl
    | some lon => exfalso; rcases h with h | h <;> simp at h

/-- C7: per-candidate failures are isolated.  Removing a candidate whose
latitude or longitude is missing (or non-numeric) from anywhere in the
input changes nothing: such a candidate never appears in the output, and
the remaining candidates are still processed and returned. -/
theorem malformed_candidate_skipped_others_processed (u v r : ℝ)
    (item : RawItem) (pre post : List RawItem)
    (h : item.latitude = none ∨ item.longitude = none) :
    process_and_sort_results u v r (pre ++ item :: post) =
      process_and_sort_results u v r (pre ++ post) := by
  unfold process_and_sort_results
  rw [processList_eq_filterMap, processList_eq_filterMap,
    List.filterMap_append, List.filterMap_append,
    List.filterMap_cons_none (toRes_eq_none_of_malformed u v r item h)]

lemma radians_zero : radians 0 = 0 := by simp [radians]

lemma radians_one_eighty : radians 180 = π := by unfold radians; ring

/-- C3: at the exactly antipodal pair `(0,0)`/`(0,180)` the unclamped
intermediate `a` of `haversine` evaluates to the boundary value `1`, so
the source passes `1 - a = 0` to the square root with no clamp; any
upward floating-point rounding of `a` at such a point would make the
argument negative.  The distance there is `6371·π`. -/
theorem haversine_unclamped_at_antipode :
    haversine_a 0 0 0 180 = 1 ∧ haversine 0 0 0 180 = 6371 * π := by
  have ha : haversine_a 0 0 0 180 = 1 := by
    unfold haversine_a
    rw [radians_zero, radians_one_eighty]
    norm_num [Real.sin_pi_div_two]
  refine ⟨ha, ?_⟩
  unfold haversine
  rw [ha]
  norm_num [Real.sqrt_one, atan2_one_zero]
  ring

/-- A candidate whose latitude key is missing. -/
def it7bad : RawItem := ⟨some "B", none, none, none, none, some 0⟩

/-- C7 witness: dropping the coordinate-less candidate `it7bad` leaves
the search over the remaining candidate unchanged. -/
theorem malformed_candidate_skipped_others_processed_witness :
    (it7bad.latitude = none ∨ it7bad.longitude = none) ∧
      process_and_sort_results 0 0 1 ([it5] ++ it7bad :: []) =
        process_and_sort_results 0 0 1 ([it5] ++ []) :=
  ⟨Or.inl rfl,
    malformed_candidate_skipped_others_processed 0 0 1 it7bad [it5] []
      (Or.inl rfl)⟩

lemma processList_name (u v r : ℝ) (l : List RawItem) :
    ∀ p ∈ processList u v r l, ∃ item ∈ l, p.name = item.name.getD "N/A" := by
  induction l with
  | nil => intro p hp; simp [processList] at hp
  | cons item rest ih =>
    intro p hp
    obtain ⟨n, N, a, A, la, lo⟩ := item
    cases la with
    | none =>
      obtain ⟨q, hq, hn⟩ := ih p hp
      exact ⟨q, List.mem_cons_of_mem _ hq, hn⟩
    | some lat =>
      cases lo with
      | none =>
        obtain ⟨q, hq, hn⟩ := ih p hp
        exact ⟨q, List.mem_cons_of_mem _ hq, hn⟩
      | some lon =>
        simp only [processList] at hp
        split_ifs at hp with hd
        · rcases List.mem_cons.mp hp with h | h
          · exact ⟨⟨n, N, a, A, some lat, some lon⟩, List.mem_cons_self _ _,
              by rw [h]; rfl⟩
          · obtain ⟨q, hq, hn⟩ := ih p h
            exact ⟨q, List.mem_cons_of_mem _ hq, hn⟩
        · obtain ⟨q, hq, hn⟩ := ih p hp
          exact ⟨q, List.mem_cons_of_mem _ hq, hn⟩

/-- A candidate carrying only a capitalized `Name` key. -/
def it4 : RawItem := ⟨none, some "Apollo", none, none, some 0, some 0⟩

/-- C4 counterexample: the candidate `it4` carries `Name = "Apollo"`
(and no lowercase `name`), yet the produced record is named `"N/A"`:
`process_and_sort_results` consults only the lowercase `name` key, so
the claimed `name`/`Name` fallback does not hold.  Also, an Overpass
node without a `name` tag is normalized to the default
`"Unnamed Pharmacy (OSM)"`, not `"N/A"`, so `"N/A"` is not the only
default name the pipeline produces. -/
theorem capital_Name_key_ignored :
    (process_and_sort_results 0 0 1 [it4]).map (fun p => p.name) = ["N/A"] ∧
      (overpassItems "pharmacy"
          [⟨"node", some 0, some 0, ⟨some "pharmacy", none, none, none, none, none⟩⟩]).map
        (fun i => i.name) = [some "Unnamed Pharmacy (OSM)"] := by
  constructor
  · simp [process_and_sort_results, processList, it4, mkResult,
      haversine_self]
  · simp only [overpassItems, pyTitle, List.filterMap]
    decide

/-- C4 amended: the name of every produced record is the source
candidate's lowercase `name` field when present and `"N/A"` otherwise;
the capitalized `Name` field is never consulted. -/
theorem output_name_from_lowercase_name_key (u v r : ℝ) (l : List RawItem)
    (p : ResultRec) (hp : p ∈ process_and_sort_results u v r l) :
    ∃ item ∈ l, p.name = item.name.getD "N/A" := by
  rw [process_and_sort_results] at hp
  exact processList_name u v r l p ((List.mem_insertionSort _).mp hp)

/-- C4 witness: for the concrete candidate `it5` (lowercase name `"A"`)
the produced record is in the output and its name is `"A"`. -/
theorem output_name_from_lowercase_name_key_witness :
    res5 ∈ process_and_sort_results 0 0 1 [it5] ∧
      ∃ item ∈ [it5], res5.name = item.name.getD "N/A" := by
  have hmem : res5 ∈ process_and_sort_results 0 0 1 [it5] := by
    rw [eval_it5 1 (by norm_num)]; exact List.mem_singleton_self _
  exact ⟨hmem, output_name_from_lowercase_name_key 0 0 1 [it5] res5 hmem⟩

/-- An Overpass node at the origin with a name and `addr:street`,
`addr:city` tags. -/
def world1 : List OsmElement :=
  [⟨"node", some 0, some 0,
    ⟨some "pharmacy", some "X", none, some "Main St", some "Springfield", none⟩⟩]

/-- A request with origin `(0,0)` and all defaults (radius 15,
amenity type pharmacy). -/
def req1 : ReqData := ⟨some (some 0), some (some 0), none, none⟩

/-- C1: `fetch_from_overpass` stores the address constructed from the
`addr:*` tags under the lowercase `address` key, but
`process_and_sort_results` reads only `item.get('Address', '')`, so the
constructed address is dropped: the final record for the node of
`world1` carries the empty address even though its fetched raw item
carries `"Main St, Springfield"`. -/
theorem overpass_address_dropped_by_ranker :
    (fetch_from_overpass 0 0 15 "pharmacy" world1 none).1.map
        (fun i => i.address) = [some "Main St, Springfield"] ∧
      find_amenities req1 world1 none =
        .ok [⟨"X", "", 0, 0, 0, (0, 0)⟩] := by
  constructor
  · simp only [fetch_from_overpass, amenitiesFor, overpassRespond,
      overpassItems, world1, joinAddress]
    decide
  · have h15 : (0 : ℝ) ≤ 15 := by norm_num
    simp [find_amenities, parseRequest, req1, fetch_from_overpass,
      amenitiesFor, overpassRespond, overpassItems, world1, joinAddress,
      process_and_sort_results, processList, mkResult, haversine_self, h15]

/-- A request with origin `(0,0)` and radius `0`. -/
def req2 : ReqData := ⟨some (some 0), some (some 0), some (some 0), some "pharmacy"⟩

/-- A pharmacy node at the origin named `P1`, with no address tags. -/
def world2 : List OsmElement :=
  [⟨"node", some 0, some 0, ⟨some "pharmacy", some "P1", none, none, none, none⟩⟩]

/-- C2 counterexample: a request with `radius = 0` is not rejected as
invalid; the handler fetches, ranks, and returns the candidate at
distance `0` with HTTP 200. -/
theorem radius_zero_request_succeeds :
    find_amenities req2 world2 none = .ok [⟨"P1", "", 0, 0, 0, (0, 0)⟩] := by
  simp [find_amenities, parseRequest, req2, fetch_from_overpass,
    amenitiesFor, overpassRespond, overpassItems, world2, joinAddress,
    process_and_sort_results, processList, mkResult, haversine_self]

/-- C2 amended: the handler performs no positivity validation of the
radius.  It answers 400 exactly when the radius value is present but
unparseable, or a coordinate is missing or unparseable; any parsed
radius — including `0` and negative values — proceeds to the fetch and
the ranking. -/
theorem err400_iff_unparseable_params (d : ReqData)
    (world : List OsmElement) :
    (∃ m, find_amenities d world none = .err400 m) ↔
      (d.radius = some none ∨ d.user_lat = none ∨ d.user_lat = some none ∨
        d.user_lon = none ∨ d.user_lon = some none) := by
  obtain ⟨la, lo, ra, ty⟩ := d
  rcases ra with _ | (_ | ra) <;> rcases la with _ | (_ | la) <;>
    rcases lo with _ | (_ | lo) <;>
      simp [find_amenities, parseRequest, fetch_from_overpass]

lemma overpassRespond_nil (world : List OsmElement) :
    overpassRespond [] world = [] := by
  unfold overpassRespond
  have hf : (fun (e : OsmElement) => match e.tags.amenity with
      | some a => List.contains ([] : List String) a
      | none => false) = fun _ => false := by
    funext e; cases e.tags.amenity <;> rfl
  rw [hf, List.filter_false]

/-- C10: any amenity type other than `pharmacy` and `hospital` is not
rejected: the category list is empty, so the query matches nothing and
the handler returns the empty 200 list (absent an upstream failure). -/
theorem unknown_amenity_type_yields_empty_ok (la lo r : ℝ) (t : String)
    (world : List OsmElement) (h1 : t ≠ "pharmacy") (h2 : t ≠ "hospital") :
    amenitiesFor t = [] ∧
      find_amenities ⟨some (some la), some (some lo), some (some r), some t⟩
        world none = .ok [] := by
  have hcat : amenitiesFor t = [] := by
    unfold amenitiesFor; rw [if_neg h1, if_neg h2]
  refine ⟨hcat, ?_⟩
  simp [find_amenities, parseRequest, fetch_from_overpass, hcat,
    overpassRespond_nil, overpassItems, process_and_sort_results,
    processList]

/-- C10 witness: a `"school"` request with valid coordinates succeeds
with the empty list. -/
theorem unknown_amenity_type_yields_empty_ok_witness :
    ("school" : String) ≠ "pharmacy" ∧ ("school" : String) ≠ "hospital" ∧
      (amenitiesFor "school" = [] ∧
        find_amenities
          ⟨some (some 0), some (some 0), some (some 15), some "school"⟩
          [] none = .ok []) :=
  ⟨by decide, by decide,
    unknown_amenity_type_yields_empty_ok 0 0 15 "school" []
      (by decide) (by decide)⟩

end
